import Mathlib

/-!
Verification development for the AI Real Estate Analyzer chat application
(src/app.py).  The app's logic is embedded shallowly: the three regular
expression searches of the field extractor are modelled as executable
functions on character lists faithful to Python `re` semantics for those
patterns, the Streamlit session state as an explicit structure, and the
external generation call as an `Except`-valued parameter.
-/

namespace RealEstateApp

/-- Python regex class backslash-s: the whitespace characters it matches
(all characters Python treats as regex whitespace; exact for the whole
Unicode range used by the app). -/
def isPySpace (c : Char) : Bool :=
  decide (c.toNat ∈ ([32, 9, 10, 13, 11, 12, 28, 29, 30, 31, 133, 160,
      5760, 8232, 8233, 8239, 8287, 12288] : List Nat)
    ∨ (8192 ≤ c.toNat ∧ c.toNat ≤ 8202))

/-- Case-insensitive prefix test, modelling a literal inside a pattern
compiled with `re.I` (the app's patterns are ASCII, where lowering both
sides is exact). -/
def startsWithCI : List Char → List Char → Bool
  | [], _ => true
  | _ :: _, [] => false
  | l :: ls, c :: cs => (Char.toLower c == Char.toLower l) && startsWithCI ls cs

/-- Body matched by lazy `(.+?)$` with neither DOTALL nor MULTILINE:
`$` anchors at end of string or just before a final newline, and `.`
refuses newlines, so the capture is forced. -/
def capBody (t : List Char) : List Char :=
  if t.getLast? = some '\n' then t.dropLast else t

/-- Result of matching `(.+?)$` at a fixed position: the unique
admissible capture, or failure. -/
def capClose (t : List Char) : Option (List Char) :=
  if 1 ≤ (capBody t).length ∧ (capBody t).contains '\n' = false then
    some (capBody t)
  else none

/-- `re.search(r'in\s(.+?)$', s, re.I)` group 1: scan for the leftmost
occurrence of `i`/`I`, `n`/`N`, a whitespace character, followed by a
successful `(.+?)$`; on failure at a position the scan advances one
character, as `re.search` does. -/
def searchLoc : List Char → Option (List Char)
  | c :: d :: e :: tail =>
    if ((c == 'i' || c == 'I') && (d == 'n' || d == 'N') && isPySpace e) then
      match capClose tail with
      | some cap => some cap
      | none => searchLoc (d :: e :: tail)
    else searchLoc (d :: e :: tail)
  | _ => none

/-- Match `(\d+)\s*LIT` (with `LIT` an alternation of literals) at a fixed
position, returning group 1.  Greedy `\d+` and `\s*` need no backtracking
here: giving back a digit leaves a digit where the literal's first letter
must match, and giving back a space leaves a whitespace character there,
so the maximal runs are the only candidates. -/
def matchNumLit (alts : List (List Char)) (t : List Char) : Option (List Char) :=
  if (t.takeWhile Char.isDigit).length = 0 then none
  else if alts.any (fun a => startsWithCI a
      (((t.drop (t.takeWhile Char.isDigit).length)).drop
        (((t.drop (t.takeWhile Char.isDigit).length)).takeWhile isPySpace).length)) then
    some (t.takeWhile Char.isDigit)
  else none

/-- `re.search` over `(\d+)\s*LIT`: leftmost starting position wins. -/
def searchNumLit (alts : List (List Char)) : List Char → Option (List Char)
  | [] => none
  | c :: rest =>
    match matchNumLit alts (c :: rest) with
    | some ds => some ds
    | none => searchNumLit alts rest

/-- Alternation `sqft|square feet` of the size pattern. -/
def sqftAlts : List (List Char) := ["sqft".data, "square feet".data]

/-- Literal `bed` of the beds pattern. -/
def bedAlts : List (List Char) := ["bed".data]

/-- The extractor's result: `st.session_state.property_details` keys.
Each field is the first capture group of a successful pattern match, or
absent (`None` matches are filtered out by the dict comprehension). -/
structure PropertyRecord where
  location : Option String
  size : Option String
  beds : Option String
deriving DecidableEq

def emptyRecord : PropertyRecord := ⟨none, none, none⟩

/-- The `details` dict comprehension of app.py lines 124-131: three
independent regex searches over the raw user input, keeping group 1 of
each successful match. -/
def extractDetails (input : String) : PropertyRecord :=
  ⟨Option.map String.mk (searchLoc input.data),
   Option.map String.mk (searchNumLit sqftAlts input.data),
   Option.map String.mk (searchNumLit bedAlts input.data)⟩

/-- Python `str.lower` restricted to the ASCII letters that occur in the
trigger words. -/
def pyLower (s : String) : String := String.mk (s.data.map Char.toLower)

/-- Python's `needle in haystack` on strings: substring containment. -/
def containsSub (needle : List Char) : List Char → Bool
  | [] => needle.isEmpty
  | c :: rest => needle.isPrefixOf (c :: rest) || containsSub needle rest

/-- `any(word in user_input.lower() for word in [...])` of app.py line 123:
case-insensitive substring test for the four trigger words. -/
def isTriggered (input : String) : Bool :=
  (["worth", "value", "price", "valuation"] : List String).any
    (fun w => containsSub w.data (pyLower input).data)

/-- Role of a chat message, the `"role"` key of app.py's history entries. -/
inductive Role where
  | user
  | assistant
deriving DecidableEq

/-- One chat message: `{"role": ..., "content": ...}`. -/
structure Turn where
  role : Role
  content : String
deriving DecidableEq

/-- The Streamlit session state keys the app initialises at lines 36-39:
`chat_history`, `property_details`, `first_interaction`. -/
structure Session where
  chat_history : List Turn
  property_details : PropertyRecord
  first_interaction : Bool
deriving DecidableEq

/-- `st.session_state` as a whole: `none` models the cleared dict (no keys),
`some s` a populated one. -/
def initSession : Option Session → Session
  | none => ⟨[], emptyRecord, true⟩
  | some s => s

/-- `st.session_state.clear()` (the Clear Session button, line 174). -/
def clearSession (_st : Option Session) : Option Session := none

/-- The welcome text of app.py lines 48-66 (triple-quoted, 4-space indent). -/
def welcomeText : String :=
  "\n    Hello! I\x27m your AI Real Estate Analyst. 🏘️ I can help with:\n    \n"
  ++ "    **Property Valuation**:\n"
  ++ "    - \"What\x27s my 3-bedroom house in Seattle worth?\"\n"
  ++ "    - \"Estimate value for 1500 sqft condo in Miami\"\n    \n"
  ++ "    **Market Analysis**:\n"
  ++ "    - \"Show trends for Austin TX housing market\"\n"
  ++ "    - \"Compare prices in Brooklyn vs Manhattan\"\n    \n"
  ++ "    **Investment Advice**:\n"
  ++ "    - \"Good ROI areas in Phoenix?\"\n"
  ++ "    - \"Should I buy this rental property?\"\n    \n"
  ++ "    **General Questions**:\n"
  ++ "    - \"Explain cap rates\"\n"
  ++ "    - \"What\x27s a 1031 exchange?\"\n    "

/-- Lines 47-70: on first interaction the greeting is appended and the
flag cleared; otherwise nothing happens. -/
def greetingStep (s : Session) : Session :=
  if s.first_interaction then
    ⟨s.chat_history ++ [⟨Role.assistant, welcomeText⟩], s.property_details, false⟩
  else s

/-- A script run up to (and including) the greeting step: state
re-initialisation at lines 36-39 followed by lines 47-70. -/
def scriptInit (st : Option Session) : Session := greetingStep (initSession st)

/-- The f-string template of app.py lines 82-114 wrapping the verbatim
user input. -/
def promptFor (input : String) : String :=
  "\n    You\x27re an expert real estate analyst with 20 years experience. The user asked:\n    \""
  ++ input ++ "\"\n    \n"
  ++ "    Respond following these guidelines:\n    \n"
  ++ "    1. **Valuation Requests**:\n"
  ++ "       - Ask for missing details (sqft, beds/baths, location, condition)\n"
  ++ "       - Provide price range based on recent comps\n"
  ++ "       - Example: \"3-bed in Chicago ≈ $450K-$520K based on West Loop comps\"\n    \n"
  ++ "    2. **Market Analysis**:\n"
  ++ "       - Compare year-over-year trends\n"
  ++ "       - Highlight inventory levels\n"
  ++ "       - Example: \"Austin prices up 8% YoY with 3 months inventory\"\n    \n"
  ++ "    3. **Investment Questions**:\n"
  ++ "       - Calculate potential ROI\n"
  ++ "       - Mention tax implications\n"
  ++ "       - Example: \"Phoenix rentals show 6.5% cap rate, consider 1031 exchange\"\n    \n"
  ++ "    4. **General Knowledge**:\n"
  ++ "       - Explain concepts simply\n"
  ++ "       - Provide examples\n    \n"
  ++ "    Format responses with:\n"
  ++ "    - 📊 Data points\n"
  ++ "    - 📍 Location context\n"
  ++ "    - 💡 Actionable advice\n"
  ++ "    - ⚠️ Risks/caveats\n    \n"
  ++ "    If information is incomplete, ask ONE clarifying question.\n    "

/-- The error message built in the `except` clause, line 137. -/
def errorReply (e : String) : String := "⚠️ Error analyzing property: " ++ e

/-- `dict.update` on one key: a key present in the update dict overwrites,
an absent key leaves the old value. -/
def updKey : Option String → Option String → Option String
  | old, none => old
  | _, some v => some v

/-- `st.session_state.property_details.update({k: v.group(1) ...})`,
lines 129-131: merge the successfully matched fields over the old record. -/
def updateRecord (old ext : PropertyRecord) : PropertyRecord :=
  ⟨updKey old.location ext.location, updKey old.size ext.size, updKey old.beds ext.beds⟩

/-- Processing one chat input (app.py lines 75-139).  `gen` stands for the
outcome of the `model.generate_content` boundary: `ok reply` for a
successful response text, `error e` for a raised exception.  The user turn
is appended first; on success the extractor runs (only for trigger inputs)
and the reply is appended; on failure only the error turn is appended. -/
def processInput (s : Session) (input : String) (gen : Except String String) : Session :=
  let s1 : Session :=
    ⟨s.chat_history ++ [⟨Role.user, input⟩], s.property_details, s.first_interaction⟩
  match gen with
  | Except.ok reply =>
    let s2 : Session :=
      if isTriggered input then
        ⟨s1.chat_history, updateRecord s1.property_details (extractDetails input),
          s1.first_interaction⟩
      else s1
    ⟨s2.chat_history ++ [⟨Role.assistant, reply⟩], s2.property_details, s2.first_interaction⟩
  | Except.error e =>
    ⟨s1.chat_history ++ [⟨Role.assistant, errorReply e⟩], s1.property_details,
      s1.first_interaction⟩

/-- Observable events of one chat-input run, in program order: turn
appends, the dispatch of the prompt to the generation boundary (carrying
the property record held at that moment), and the property-record update. -/
inductive Event where
  | appendTurn : Turn → Event
  | dispatch : String → PropertyRecord → Event
  | recordUpdate : PropertyRecord → Event
deriving DecidableEq

def isUpdateEvt : Event → Bool
  | Event.recordUpdate _ => true
  | _ => false

/-- The event trace of `processInput`, in the statement order of app.py
lines 75-139: user append (77), generation dispatch (119), then on success
the record update (123-131) and reply append (134), on failure the error
append (139). -/
def processInputTrace (s : Session) (input : String) (gen : Except String String) :
    List Event :=
  [Event.appendTurn ⟨Role.user, input⟩,
   Event.dispatch (promptFor input) s.property_details] ++
  match gen with
  | Except.ok reply =>
    (if isTriggered input then
      [Event.recordUpdate (updateRecord s.property_details (extractDetails input))]
    else []) ++ [Event.appendTurn ⟨Role.assistant, reply⟩]
  | Except.error e => [Event.appendTurn ⟨Role.assistant, errorReply e⟩]

/-- State effect of one event. -/
def applyEvent (s : Session) : Event → Session
  | Event.appendTurn t => ⟨s.chat_history ++ [t], s.property_details, s.first_interaction⟩
  | Event.dispatch _ _ => s
  | Event.recordUpdate r => ⟨s.chat_history, r, s.first_interaction⟩

/-- `list.append` on the chat history (lines 67, 77, 134, 139). -/
def appendOneTurn (h : List Turn) (t : Turn) : List Turn := h ++ [t]

/-- Appending a sequence of turns one by one. -/
def appendTurns (h : List Turn) (ts : List Turn) : List Turn := ts.foldl appendOneTurn h

/-- The display loop of lines 42-44: reads the history and leaves the
session untouched. -/
def readTranscript (s : Session) : List Turn × Session := (s.chat_history, s)

/-- `"location" in st.session_state.property_details` (lines 158, 167). -/
def hasLocation (s : Session) : Bool := s.property_details.location.isSome

/-- What a sidebar tool handler produces when no exception escapes:
the (unchanged) session, an optional rendered reply, an optional warning. -/
structure ToolResult where
  session : Session
  displayed : Option String
  warned : Option String
deriving DecidableEq

/-- A sidebar tool run: `outcome` is `error e` when the generation call
raised and the exception escaped the handler (there is no try/except in
lines 156-172); `genCalled` records whether the boundary was invoked. -/
structure ToolRun where
  outcome : Except String ToolResult
  genCalled : Bool

/-- Prompt of the Calculate Mortgage button (line 159). -/
def mortgagePrompt (r : PropertyRecord) : String :=
  "Estimate monthly mortgage for " ++ r.size.getD "" ++ " property in "
  ++ r.location.getD "" ++ " at current rates"

/-- Prompt of the Rental Estimate button (line 168). -/
def rentalPrompt (r : PropertyRecord) : String :=
  "Estimate rental income for " ++ r.beds.getD "" ++ " bedroom in "
  ++ r.location.getD ""

/-- The Calculate Mortgage handler (lines 156-163): with a location the
generation boundary is called and its exception, if any, escapes;
without one only a warning is shown. -/
def mortgageClick (s : Session) (gen : String → Except String String) : ToolRun :=
  if hasLocation s then
    match gen (mortgagePrompt s.property_details) with
    | Except.ok r => ⟨Except.ok ⟨s, some r, none⟩, true⟩
    | Except.error e => ⟨Except.error e, true⟩
  else ⟨Except.ok ⟨s, none, some "Please provide location and price first"⟩, false⟩

/-- The Rental Estimate handler (lines 165-172). -/
def rentalClick (s : Session) (gen : String → Except String String) : ToolRun :=
  if hasLocation s then
    match gen (rentalPrompt s.property_details) with
    | Except.ok r => ⟨Except.ok ⟨s, some r, none⟩, true⟩
    | Except.error e => ⟨Except.error e, true⟩
  else ⟨Except.ok ⟨s, none, some "Please provide location and bedroom count"⟩, false⟩

/-! ### Helper lemmas -/

/-- A successful `(.+?)$` capture is nonempty (the `+` demands a character). -/
theorem capClose_one_le {t cap : List Char} (h : capClose t = some cap) :
    1 ≤ cap.length := by
  unfold capClose at h
  split_ifs at h with hc
  obtain rfl : capBody t = cap := Option.some.inj h
  exact hc.1

/-- A successful location capture is nonempty. -/
theorem searchLoc_one_le {l : List Char} :
    ∀ {cap : List Char}, searchLoc l = some cap → 1 ≤ cap.length := by
  induction l with
  | nil => intro cap h; simp [searchLoc] at h
  | cons c rest ih =>
    intro cap h
    rcases rest with _ | ⟨d, rest2⟩
    · simp [searchLoc] at h
    rcases rest2 with _ | ⟨e, tail⟩
    · simp [searchLoc] at h
    rw [searchLoc] at h
    split at h
    · cases hcap : capClose tail with
      | some cap2 =>
        rw [hcap] at h
        exact Option.some.inj h ▸ capClose_one_le hcap
      | none =>
        rw [hcap] at h
        exact ih h
    · exact ih h

/-- A successful `(\d+)\s*LIT` capture at a fixed position is a nonempty
run of digits. -/
theorem matchNumLit_digits {alts : List (List Char)} {t ds : List Char}
    (h : matchNumLit alts t = some ds) :
    1 ≤ ds.length ∧ ∀ c ∈ ds, c.isDigit = true := by
  unfold matchNumLit at h
  split_ifs at h with h1 h2
  obtain rfl : t.takeWhile Char.isDigit = ds := Option.some.inj h
  refine ⟨by omega, fun c hc => List.mem_takeWhile_imp hc⟩

/-- A successful `(\d+)\s*LIT` search capture is a nonempty run of digits. -/
theorem searchNumLit_digits {alts : List (List Char)} {l : List Char} :
    ∀ {ds : List Char}, searchNumLit alts l = some ds →
      1 ≤ ds.length ∧ ∀ c ∈ ds, c.isDigit = true := by
  induction l with
  | nil => intro ds h; simp [searchNumLit] at h
  | cons c rest ih =>
    intro ds h
    rw [searchNumLit] at h
    cases hm : matchNumLit alts (c :: rest) with
    | some ds2 =>
      rw [hm] at h
      exact Option.some.inj h ▸ matchNumLit_digits hm
    | none =>
      rw [hm] at h
      exact ih h

/-- `appendTurns` is plain list concatenation. -/
theorem appendTurns_eq (h ts : List Turn) : appendTurns h ts = h ++ ts := by
  induction ts generalizing h with
  | nil => simp [appendTurns]
  | cons t ts ih =>
    simp only [appendTurns, List.foldl_cons] at ih ⊢
    rw [ih (appendOneTurn h t)]
    simp [appendOneTurn]

/-- The state computed by `processInput` is the fold of its event trace:
the trace is a faithful decomposition of the same code path. -/
theorem processInput_eq_trace (s : Session) (input : String)
    (gen : Except String String) :
    processInput s input gen = (processInputTrace s input gen).foldl applyEvent s := by
  cases gen with
  | ok reply =>
    by_cases htr : isTriggered input
    · simp [processInput, processInputTrace, applyEvent, htr]
    · simp [processInput, processInputTrace, applyEvent, htr]
  | error e => simp [processInput, processInputTrace, applyEvent]

/-- On a successful generation call the history grows by the user turn
and the reply turn, whatever the trigger state. -/
theorem processInput_ok_history (s : Session) (input reply : String) :
    (processInput s input (Except.ok reply)).chat_history
      = s.chat_history ++ [⟨Role.user, input⟩, ⟨Role.assistant, reply⟩] := by
  by_cases h : isTriggered input <;> simp [processInput, h]

/-- An infix of a list is an infix of any right extension. -/
theorem infix_append_right {l a b : List Char} (h : l <:+: a) : l <:+: a ++ b := by
  obtain ⟨u, t, rfl⟩ := h
  exact ⟨u, t ++ b, by simp⟩

/-! ### Claim theorems -/

/-- C1 counterexample: on "3 bed in Austin 1500 sqft" the location capture
is "Austin 1500 sqft" — the pattern `in\s(.+?)$` is anchored at the end of
the string, so the capture is not bounded by the next whitespace and the
claimed value "Austin" is wrong. -/
theorem C1_location_runs_to_end :
    (extractDetails "3 bed in Austin 1500 sqft").location = some "Austin 1500 sqft" ∧
    ((extractDetails "3 bed in Austin 1500 sqft").location == some "Austin") = false := by
  decide

/-- C1 (amended): for the input string "3 bed in Austin 1500 sqft" the
field extractor yields beds="3", size="1500", price absent (this variant
extracts no price field at all), and location = "Austin 1500 sqft": the
whole text following the word "in" up to the end of the string, not
bounded by the next whitespace. -/
theorem C1_extract_example :
    extractDetails "3 bed in Austin 1500 sqft" =
      ⟨some "Austin 1500 sqft", some "1500", some "3"⟩ := by
  decide

/-- A concrete session whose record holds only a stale size field. -/
def priorSizeSession : Session := ⟨[], ⟨none, some "1500", none⟩, false⟩

/-- C2 counterexample: the triggering input "worth in Austin" matches no
size, yet after processing the prior record's size "1500" is still there —
`dict.update` merges instead of overwriting wholesale, so unmatched old
fields survive. -/
theorem C2_stale_field_survives :
    isTriggered "worth in Austin" = true ∧
    (extractDetails "worth in Austin").size = none ∧
    (processInput priorSizeSession "worth in Austin" (Except.ok "reply")).property_details.size
      = some "1500" := by
  decide

/-- C2 (amended): each time a valuation-style query is detected with a
successful generation call, the newly extracted fields are merged into the
session's PropertyRecord by `dict.update`: a field matched in the new
input overwrites the old value, while fields present in the prior record
but not matched in the new input survive unchanged (per-field last-write-
wins, not wholesale replacement). -/
theorem C2_trigger_merges_record (s : Session) (input reply : String)
    (h : isTriggered input = true) :
    (processInput s input (Except.ok reply)).property_details
        = updateRecord s.property_details (extractDetails input) ∧
    ((extractDetails input).location = none →
      (processInput s input (Except.ok reply)).property_details.location
        = s.property_details.location) ∧
    ((extractDetails input).size = none →
      (processInput s input (Except.ok reply)).property_details.size
        = s.property_details.size) ∧
    ((extractDetails input).beds = none →
      (processInput s input (Except.ok reply)).property_details.beds
        = s.property_details.beds) := by
  refine ⟨by simp [processInput, h], ?_, ?_, ?_⟩ <;>
    intro he <;> simp [processInput, h, updateRecord, he, updKey]

/-- C2 witness at the concrete merge input. -/
theorem C2_trigger_merges_record_witness :
    (processInput priorSizeSession "worth in Austin" (Except.ok "reply")).property_details
      = updateRecord priorSizeSession.property_details (extractDetails "worth in Austin") :=
  (C2_trigger_merges_record priorSizeSession "worth in Austin" "reply" (by decide)).1

/-- C3 (confirmed): an input containing none of the trigger words (as
case-insensitive substrings) leaves the PropertyRecord exactly as it was,
whether the generation call succeeds or fails. -/
theorem C3_nontrigger_preserves_record (s : Session) (input : String)
    (gen : Except String String) (h : isTriggered input = false) :
    (processInput s input gen).property_details = s.property_details := by
  cases gen <;> simp [processInput, h]

/-- C3 witness at a concrete trigger-free input. -/
theorem C3_witness :
    (processInput priorSizeSession "hello there" (Except.ok "hi")).property_details
      = priorSizeSession.property_details :=
  C3_nontrigger_preserves_record priorSizeSession "hello there" (Except.ok "hi") (by decide)

/-- C4 (confirmed): every field of the extractor's record is exactly the
first capture group of a successful pattern match, and a field whose
pattern fails is absent; a present capture is never the empty string, and
the numeric fields are nonempty digit runs (no zero or placeholder value
is ever inserted on a failed match). -/
theorem C4_fields_are_captures (input : String) :
    ((extractDetails input).location = Option.map String.mk (searchLoc input.data)) ∧
    ((extractDetails input).size = Option.map String.mk (searchNumLit sqftAlts input.data)) ∧
    ((extractDetails input).beds = Option.map String.mk (searchNumLit bedAlts input.data)) ∧
    (∀ v, (extractDetails input).location = some v → 1 ≤ v.length) ∧
    (∀ v, (extractDetails input).size = some v →
      1 ≤ v.length ∧ v.data.all Char.isDigit = true) ∧
    (∀ v, (extractDetails input).beds = some v →
      1 ≤ v.length ∧ v.data.all Char.isDigit = true) := by
  refine ⟨rfl, rfl, rfl, ?_, ?_, ?_⟩
  · intro v hv
    have hv2 : Option.map String.mk (searchLoc input.data) = some v := hv
    cases hs : searchLoc input.data with
    | none => rw [hs] at hv2; exact Option.noConfusion hv2
    | some a =>
      rw [hs] at hv2
      obtain rfl : String.mk a = v := Option.some.inj hv2
      exact searchLoc_one_le hs
  · intro v hv
    have hv2 : Option.map String.mk (searchNumLit sqftAlts input.data) = some v := hv
    cases hs : searchNumLit sqftAlts input.data with
    | none => rw [hs] at hv2; exact Option.noConfusion hv2
    | some a =>
      rw [hs] at hv2
      obtain rfl : String.mk a = v := Option.some.inj hv2
      obtain ⟨h1, h2⟩ := searchNumLit_digits hs
      exact ⟨h1, by simpa [List.all_eq_true] using h2⟩
  · intro v hv
    have hv2 : Option.map String.mk (searchNumLit bedAlts input.data) = some v := hv
    cases hs : searchNumLit bedAlts input.data with
    | none => rw [hs] at hv2; exact Option.noConfusion hv2
    | some a =>
      rw [hs] at hv2
      obtain rfl : String.mk a = v := Option.some.inj hv2
      obtain ⟨h1, h2⟩ := searchNumLit_digits hs
      exact ⟨h1, by simpa [List.all_eq_true] using h2⟩

/-- C4 witness: size capture of the running example is the nonempty digit
run "1500". -/
theorem C4_witness :
    (extractDetails "3 bed in Austin 1500 sqft").size = some "1500" ∧
    1 ≤ ("1500" : String).length ∧ ("1500" : String).data.all Char.isDigit = true := by
  refine ⟨by decide, ?_⟩
  exact (C4_fields_are_captures "3 bed in Austin 1500 sqft").2.2.2.2.1 "1500" (by decide)

/-- C5 (confirmed): appending a sequence of turns to an empty transcript
and then reading returns exactly those turns, in insertion order, with
each role and content unchanged, and reading returns the session
unmodified. -/
theorem C5_transcript_append_read (ts : List Turn) (r : PropertyRecord) (b : Bool) :
    (readTranscript ⟨appendTurns [] ts, r, b⟩).1 = ts ∧
    (readTranscript ⟨appendTurns [] ts, r, b⟩).1.length = ts.length ∧
    (readTranscript ⟨appendTurns [] ts, r, b⟩).2 = ⟨appendTurns [] ts, r, b⟩ := by
  refine ⟨?_, ?_, rfl⟩ <;> simp [readTranscript, appendTurns_eq]

/-- C6 (confirmed): clearing the session always empties the state dict,
re-initialisation then yields an empty transcript, an empty
PropertyRecord and the first-run flag, and the next interaction re-emits
the greeting turn. -/
theorem C6_clear_resets (st : Option Session) :
    clearSession st = none ∧
    initSession (clearSession st) = ⟨[], emptyRecord, true⟩ ∧
    (scriptInit (clearSession st)).chat_history = [⟨Role.assistant, welcomeText⟩] ∧
    (scriptInit (clearSession st)).property_details = emptyRecord ∧
    (scriptInit (clearSession st)).first_interaction = false := by
  refine ⟨rfl, rfl, ?_, ?_, ?_⟩ <;>
    simp [scriptInit, clearSession, initSession, greetingStep]

/-- C7 (confirmed): when the generation call fails, processing appends the
user turn and exactly one assistant turn whose content carries the error
indicator; the transcript grows by exactly two, the record is untouched,
and the session stays usable: the next (successful) input grows the
history by two more turns. -/
theorem C7_failure_appends_error_turn (s : Session) (input e : String) :
    (processInput s input (Except.error e)).chat_history
      = s.chat_history ++ [⟨Role.user, input⟩, ⟨Role.assistant, errorReply e⟩] ∧
    (processInput s input (Except.error e)).chat_history.length
      = s.chat_history.length + 2 ∧
    (processInput s input (Except.error e)).property_details = s.property_details ∧
    "Error".data <:+: (errorReply e).data ∧
    (∀ input2 reply,
      (processInput (processInput s input (Except.error e)) input2
          (Except.ok reply)).chat_history.length = s.chat_history.length + 4) := by
  refine ⟨by simp [processInput], by simp [processInput], rfl, ?_, ?_⟩
  · have hpre : "Error".data <:+: "⚠️ Error analyzing property: ".data :=
      ⟨"⚠️ ".data, " analyzing property: ".data, by decide⟩
    have hdata : (errorReply e).data = "⚠️ Error analyzing property: ".data ++ e.data := rfl
    rw [hdata]
    exact infix_append_right hpre
  · intro input2 reply
    rw [processInput_ok_history]
    simp [processInput]

/-- A concrete session whose record holds a location. -/
def locSession : Session := ⟨[], ⟨some "Austin", none, none⟩, false⟩

/-- A generation boundary that always raises. -/
def failGen : String → Except String String := fun _ => Except.error "quota"

/-- C8 counterexample: with a location cached, a failing generation call
inside the Calculate Mortgage (and Rental Estimate) handler escapes the
handler as an exception — there is no try/except at those call sites, so
the failure is not converted into an assistant error turn. -/
theorem C8_tool_failure_propagates :
    (mortgageClick locSession failGen).outcome = Except.error "quota" ∧
    (rentalClick locSession failGen).outcome = Except.error "quota" ∧
    (mortgageClick locSession failGen).genCalled = true := ⟨rfl, rfl, rfl⟩

/-- C8 (amended): only the main chat call site converts generation
failures into an assistant error turn; the mortgage and rental tool
handlers have no handler of their own, so when the boundary raises there
the exception propagates out of the button handler unconverted. -/
theorem C8_only_main_call_catches (s : Session) (input e : String)
    (gen : String → Except String String) :
    ((processInput s input (Except.error e)).chat_history
      = s.chat_history ++ [⟨Role.user, input⟩, ⟨Role.assistant, errorReply e⟩]) ∧
    (hasLocation s = true → gen (mortgagePrompt s.property_details) = Except.error e →
      (mortgageClick s gen).outcome = Except.error e) ∧
    (hasLocation s = true → gen (rentalPrompt s.property_details) = Except.error e →
      (rentalClick s gen).outcome = Except.error e) := by
  refine ⟨by simp [processInput], ?_, ?_⟩ <;>
    intro hl hg <;> simp [mortgageClick, rentalClick, hl, hg]

/-- C8 witness: the rental handler propagates a concrete failure. -/
theorem C8_only_main_call_catches_witness :
    (rentalClick locSession failGen).outcome = Except.error "quota" :=
  (C8_only_main_call_catches locSession "x" "quota" failGen).2.2 (by decide) rfl

/-- A concrete fresh session after the greeting. -/
def freshSession : Session := ⟨[], emptyRecord, false⟩

/-- C9 counterexample: on the triggering input "worth in Austin" the
dispatch event (index 1 of the trace) still carries the empty pre-input
record, while the record update to location="Austin" only happens at
index 2 — the prompt is dispatched before the PropertyRecord is updated
from that input. -/
theorem C9_dispatch_before_update :
    (processInputTrace freshSession "worth in Austin" (Except.ok "reply")).get? 1
      = some (Event.dispatch (promptFor "worth in Austin") emptyRecord) ∧
    (processInputTrace freshSession "worth in Austin" (Except.ok "reply")).get? 2
      = some (Event.recordUpdate ⟨some "Austin", none, none⟩) ∧
    ((emptyRecord : PropertyRecord) == (⟨some "Austin", none, none⟩ : PropertyRecord))
      = false := by
  refine ⟨rfl, by decide, by decide⟩

/-- C9 (corrected): the templated prompt is dispatched to the generation
service BEFORE the extractor's fields are merged: the dispatch event
always carries the pre-input PropertyRecord, any record update occurs
later in the trace, and when the generation call fails no update happens
at all. -/
theorem C9_update_after_dispatch (s : Session) (input : String)
    (gen : Except String String) :
    (processInputTrace s input gen).take 2
      = [Event.appendTurn ⟨Role.user, input⟩,
         Event.dispatch (promptFor input) s.property_details] ∧
    (∀ e, gen = Except.error e →
      ∀ ev ∈ processInputTrace s input gen, isUpdateEvt ev = false) := by
  constructor
  · cases gen <;> simp [processInputTrace]
  · rintro e rfl ev hev
    simp [processInputTrace] at hev
    rcases hev with h | h | h <;> subst h <;> rfl

/-- C9 witness: a turn-append event of a concrete failing run is not a
record update. -/
theorem C9_update_after_dispatch_witness :
    isUpdateEvt (Event.appendTurn ⟨Role.user, "worth in Austin"⟩) = false :=
  (C9_update_after_dispatch freshSession "worth in Austin" (Except.error "boom")).2
    "boom" rfl (Event.appendTurn ⟨Role.user, "worth in Austin"⟩) (by decide)

/-- C10 (confirmed): the mortgage and rental handlers call the generation
boundary only when the record holds a location; without one each shows
only its warning, makes no call, and returns the session unchanged. -/
theorem C10_tools_require_location (s : Session) (gen : String → Except String String) :
    (hasLocation s = false →
      mortgageClick s gen
        = ⟨Except.ok ⟨s, none, some "Please provide location and price first"⟩, false⟩ ∧
      rentalClick s gen
        = ⟨Except.ok ⟨s, none, some "Please provide location and bedroom count"⟩, false⟩) ∧
    ((mortgageClick s gen).genCalled = true → hasLocation s = true) ∧
    ((rentalClick s gen).genCalled = true → hasLocation s = true) := by
  by_cases hl : hasLocation s
  · exact ⟨fun h => absurd hl (by simp [h]), fun _ => hl, fun _ => hl⟩
  · have hl2 : hasLocation s = false := by simpa using hl
    refine ⟨fun _ => ⟨by simp [mortgageClick, hl2], by simp [rentalClick, hl2]⟩, ?_, ?_⟩
    · intro hg; rw [mortgageClick] at hg; simp [hl2] at hg
    · intro hg; rw [rentalClick] at hg; simp [hl2] at hg

/-- C10 witness: a concrete location-free session only warns. -/
theorem C10_tools_require_location_witness :
    mortgageClick priorSizeSession failGen
      = ⟨Except.ok ⟨priorSizeSession, none, some "Please provide location and price first"⟩,
         false⟩ :=
  ((C10_tools_require_location priorSizeSession failGen).1 (by decide)).1

end RealEstateApp
